import Mathlib

/-!
Verification model of the SleepSenseV2 manual-entry screen
(`src/ManualEntry_Integrated.js`, baseline and enhanced variants).

The JavaScript source is embedded shallowly: the form record, the
JS string-to-number coercions (`parseInt`, `parseFloat`, `||`-falsiness),
the prediction-request builder, the `saveData` workflow (modelled as a
pure function from the form, an environment describing the storage and
fetch outcomes, and the current key-value store, to the list of effects
it performs), and the `PickerButton` component's render and event step
function.
-/

/-- Characters treated as leading whitespace by the JS numeric parsing
functions (the common ASCII whitespace plus NBSP). -/
def jsWhitespace (c : Char) : Bool :=
  c = ' ' || c = '\t' || c = '\n' || c = '\r' ||
  c = '\x0b' || c = '\x0c' || c = ' '

/-- Split off the longest run of leading decimal digits. -/
def takeDigits : List Char → List Char × List Char
  | [] => ([], [])
  | c :: cs =>
    if c.isDigit then
      let p := takeDigits cs
      (c :: p.1, p.2)
    else ([], c :: cs)

/-- Numeric value of a run of decimal digits (most significant first). -/
def digitsToNat (ds : List Char) : Nat :=
  ds.foldl (fun n c => 10 * n + (c.toNat - 48)) 0

/-- Split off the longest run of leading hexadecimal digits. -/
def takeHexDigits : List Char → List Char × List Char
  | [] => ([], [])
  | c :: cs =>
    if c.isDigit || ('a' ≤ c && c ≤ 'f') || ('A' ≤ c && c ≤ 'F') then
      let p := takeHexDigits cs
      (c :: p.1, p.2)
    else ([], c :: cs)

/-- Numeric value of one hexadecimal digit. -/
def hexDigitVal (c : Char) : Nat :=
  if c.isDigit then c.toNat - 48
  else if 'a' ≤ c && c ≤ 'f' then c.toNat - 87
  else c.toNat - 55

/-- Numeric value of a run of hexadecimal digits. -/
def hexToNat (ds : List Char) : Nat :=
  ds.foldl (fun n c => 16 * n + hexDigitVal c) 0

/-- Boolean test that `n` is the start of `h` (list-level). -/
def leadsWith : List Char → List Char → Bool
  | [], _ => true
  | _ :: _, [] => false
  | a :: as, b :: bs => a == b && leadsWith as bs

/-- Boolean substring test: `n` occurs contiguously inside `h`. -/
def hasSub (n : List Char) : List Char → Bool
  | [] => leadsWith n []
  | c :: t => leadsWith n (c :: t) || hasSub n t

/-- String-level substring test, mirroring the JS `String.includes` used
by the enhanced error handler. -/
def strContains (hay n : String) : Bool :=
  hasSub n.data hay.data

/-- A JS number as produced by `parseInt` / `parseFloat`: NaN, a signed
infinity, or a finite value (modelled as an exact rational). -/
inductive JsNum where
  | nan
  | inf (neg : Bool)
  | num (q : ℚ)
deriving DecidableEq, Repr

/-- JS falsiness of a number: `NaN` and `0` (and `-0`) are falsy, every
other number (infinities included) is truthy. -/
def jsFalsy : JsNum → Bool
  | .nan => true
  | .inf _ => false
  | .num q => q == 0

/-- Consume an optional leading sign; returns (negative?, rest). -/
def takeSign : List Char → Bool × List Char
  | '-' :: t => (true, t)
  | '+' :: t => (false, t)
  | cs => (false, cs)

/-- Apply a trailing exponent part (`e`/`E`, optional sign, digits) to a
mantissa, as JS `parseFloat` does; if no digits follow the `e`, the
exponent part is not part of the longest valid numeric literal and the
mantissa stands. Scaling by the power of ten is computed directly on
the reduced numerator and denominator via `mkRat` (which is equal to
multiplying, respectively dividing, by `10 ^ e`). -/
def applyExp (q : ℚ) (cs : List Char) : ℚ :=
  match cs with
  | c :: rest =>
    if c = 'e' || c = 'E' then
      let s := takeSign rest
      let d := takeDigits s.2
      if d.1.isEmpty then q
      else
        let e := digitsToNat d.1
        if s.1 then mkRat q.num (q.den * 10 ^ e)
        else mkRat (q.num * (10 : ℤ) ^ e) q.den
    else q
  | [] => q

/-- Parse the longest unsigned decimal literal at the head of `cs`
(digits, optional fraction, optional exponent); `none` when no digit is
present, which JS reports as NaN. The mantissa
`intDigits + fracDigits / 10 ^ fracLen` is expressed as a single
`mkRat`. -/
def parseUnsignedDecimal (cs : List Char) : Option ℚ :=
  let ip := takeDigits cs
  match ip.2 with
  | '.' :: r2 =>
    let fp := takeDigits r2
    if ip.1.isEmpty && fp.1.isEmpty then none
    else
      let mant : ℚ :=
        mkRat (digitsToNat ip.1 * 10 ^ fp.1.length + digitsToNat fp.1 : ℕ)
          (10 ^ fp.1.length)
      some (applyExp mant fp.2)
  | _ =>
    if ip.1.isEmpty then none
    else some (applyExp (mkRat (digitsToNat ip.1 : ℕ) 1) ip.2)

/-- JS `parseFloat`: skip whitespace, optional sign, then the longest
decimal literal or the literal `Infinity`; NaN when nothing matches. -/
def jsParseFloat (s : String) : JsNum :=
  let cs := s.data.dropWhile jsWhitespace
  let sg := takeSign cs
  if leadsWith "Infinity".data sg.2 then .inf sg.1
  else
    match parseUnsignedDecimal sg.2 with
    | none => .nan
    | some q => .num (if sg.1 then -q else q)

/-- JS `parseInt` with no radix argument: skip whitespace, optional
sign, a `0x`/`0X` prefixed hexadecimal literal or the longest run of
decimal digits; `none` models the NaN result when no digit is present. -/
def jsParseInt (s : String) : Option ℤ :=
  let cs := s.data.dropWhile jsWhitespace
  let sg := takeSign cs
  let core : Option ℕ :=
    match sg.2 with
    | '0' :: c :: t =>
      if c = 'x' || c = 'X' then
        let hs := takeHexDigits t
        if hs.1.isEmpty then none else some (hexToNat hs.1)
      else
        some (digitsToNat (takeDigits ('0' :: c :: t)).1)
    | _ =>
      let ds := takeDigits sg.2
      if ds.1.isEmpty then none else some (digitsToNat ds.1)
  core.map (fun n => if sg.1 then -(n : ℤ) else (n : ℤ))

/-- The full user-entered record (`form` state in both variants); every
field is the raw text of its input control. -/
structure FormEntry where
  gender : String
  age : String
  occupation : String
  sleepDuration : String
  sleepQuality : String
  physicalActivity : String
  stressLevel : String
  bmiCategory : String
  bloodPressure : String
  heartRate : String
  dailySteps : String
  sleepDisorder : String
deriving DecidableEq, Repr

/-- The payload of the POST built by `getPrediction`; optional fields
are `none` exactly when the JS expression `parseFloat(x) || null`
(respectively `x || null`) evaluates to `null`. -/
structure PredictionRequest where
  age : JsNum
  gender : String
  daily_steps : Option JsNum
  physical_activity_minutes : Option JsNum
  stress_level : Option JsNum
  bmi_category : Option String
deriving DecidableEq, Repr

/-- `parseFloat(s) || null`: the parsed number unless it is falsy
(NaN from an empty or unparsable string, or zero), in which case null. -/
def floatOrNull (s : String) : Option JsNum :=
  let n := jsParseFloat s
  if jsFalsy n then none else some n

/-- The request body built by `getPrediction` from the form
(`src/ManualEntry_Integrated.js`, the `body: JSON.stringify(...)`
object in both variants). -/
def buildRequest (f : FormEntry) : PredictionRequest :=
  { age := match jsParseInt f.age with
      | none => .nan
      | some i => .num (i : ℚ)
  , gender := f.gender
  , daily_steps := floatOrNull f.dailySteps
  , physical_activity_minutes := floatOrNull f.physicalActivity
  , stress_level := floatOrNull f.stressLevel
  , bmi_category := if f.bmiCategory = "" then none else some f.bmiCategory }

/-- One decimal digit as a character. -/
def digitChar (n : ℕ) : Char := Char.ofNat (48 + n % 10)

/-- JS `Number.prototype.toFixed(1)`: round `q` to the nearest tenth
(ties toward the larger value, per the ECMAScript algorithm) and print
it with exactly one digit after the decimal point. The rounded integer
`n = floor(10q + 1/2)` is computed on the reduced numerator and
denominator with floor division. -/
def toFixed1 (q : ℚ) : String :=
  let n : ℤ := Int.fdiv (20 * q.num + (q.den : ℤ)) (2 * (q.den : ℤ))
  let m := n.natAbs
  (if n < 0 then "-" else "") ++ toString (m / 10) ++ "." ++
    String.singleton (digitChar m)

/-- Multiplication of a rational by 100, written on the raw numerator
so that it evaluates by kernel reduction (equal to `q * 100`). -/
def ratMul100 (q : ℚ) : ℚ := mkRat (100 * q.num) q.den

/-- JSON escaping of one character, as `JSON.stringify` performs on
string values. -/
def jsonEscapeChar (c : Char) : String :=
  if c = '"' then "\\\""
  else if c = '\\' then "\\\\"
  else if c = '\n' then "\\n"
  else if c = '\r' then "\\r"
  else if c = '\t' then "\\t"
  else if c = '\x08' then "\\b"
  else if c = '\x0c' then "\\f"
  else if c.toNat < 32 then
    "\\u00" ++ String.singleton (digitChar ((c.toNat / 16) % 10)) ++
      String.singleton (digitChar (c.toNat % 16))
  else String.singleton c

/-- A JSON string literal for `s`. -/
def jsonString (s : String) : String :=
  "\"" ++ String.join (s.data.map jsonEscapeChar) ++ "\""

/-- `JSON.stringify(form)`: the twelve fields in declaration order,
each as a JSON string (this is the exact text written to storage under
the key `"manualEntry"`). -/
def serializeForm (f : FormEntry) : String :=
  "\x7b\"gender\":" ++ jsonString f.gender ++
  ",\"age\":" ++ jsonString f.age ++
  ",\"occupation\":" ++ jsonString f.occupation ++
  ",\"sleepDuration\":" ++ jsonString f.sleepDuration ++
  ",\"sleepQuality\":" ++ jsonString f.sleepQuality ++
  ",\"physicalActivity\":" ++ jsonString f.physicalActivity ++
  ",\"stressLevel\":" ++ jsonString f.stressLevel ++
  ",\"bmiCategory\":" ++ jsonString f.bmiCategory ++
  ",\"bloodPressure\":" ++ jsonString f.bloodPressure ++
  ",\"heartRate\":" ++ jsonString f.heartRate ++
  ",\"dailySteps\":" ++ jsonString f.dailySteps ++
  ",\"sleepDisorder\":" ++ jsonString f.sleepDisorder ++ "\x7d"

/-- The parsed JSON body of a successful prediction response (the
`explanation` payload is opaque and never consumed, so it is not
modelled). -/
structure PredictionResponse where
  prediction : String
  confidence : ℚ
  recommendations : List String
deriving DecidableEq, Repr

/-- The two side-by-side implementations of the screen and client. -/
inductive Variant where
  | baseline
  | enhanced
deriving DecidableEq, Repr

/-- Outcome of the `AsyncStorage.setItem` step: success, or a thrown
storage error with the given message. -/
inductive StorageResult where
  | ok
  | failure (msg : String)
deriving DecidableEq, Repr

/-- Outcome of the `fetch` inside `getPrediction`: a network-level
rejection (before any response), a response with a non-success HTTP
status and a body text, a JSON-decoding failure of a success response,
or a decoded success response. -/
inductive FetchOutcome where
  | networkError (msg : String)
  | httpError (status : ℕ) (bodyText : String)
  | decodeError (msg : String)
  | success (resp : PredictionResponse)
deriving DecidableEq, Repr

/-- Whether the fetch produced a decoded success response. -/
def FetchOutcome.isSuccess : FetchOutcome → Bool
  | .success _ => true
  | _ => false

/-- The environment one run of the save workflow executes against. -/
structure Env where
  storage : StorageResult
  fetch : FetchOutcome
deriving DecidableEq, Repr

/-- The message of the error thrown out of `getPrediction` for a
non-success outcome: a network rejection or a decode failure propagates
its own message; a non-success HTTP status throws
"Failed to get prediction" in the baseline variant and
"Server error: status - body" in the enhanced variant. -/
def thrownMsg (var : Variant) : FetchOutcome → String
  | .networkError m => m
  | .decodeError m => m
  | .httpError status body =>
    match var with
    | .baseline => "Failed to get prediction"
    | .enhanced => "Server error: " ++ toString status ++ " - " ++ body
  | .success _ => ""

/-- The fixed catch-all notice of the baseline variant's `saveData`. -/
def baselineFailNotice : String :=
  "Error getting prediction. Please check your internet connection and try again."

/-- The three numbered remediation steps of the enhanced variant's
network-error branch. -/
def netStepsText : String :=
  "Network error: Cannot reach the server.\n\nSolutions:\n" ++
  "1. Check if the Replit server is running\n" ++
  "2. Make sure the API_URL is correct\n" ++
  "3. Try updating the URL in the code"

/-- The enhanced variant's composed failure notice: the network-marker
branch, the server-error branch, or the raw message under a
"Details:" prefixed line. -/
def enhancedFailNotice (m : String) : String :=
  "Error getting prediction.\n\n" ++
  (if strContains m "Network request failed" then netStepsText
   else if strContains m "Server error" then m
   else "Details: " ++ m)

/-- The failure notice shown by `saveData`'s catch block, per variant,
given the caught error's message. -/
def failNotice : Variant → String → String
  | .baseline, _ => baselineFailNotice
  | .enhanced, m => enhancedFailNotice m

/-- The success notice shown by `saveData`: prediction label,
confidence rendered with `toFixed(1)` and a percent sign, and the
recommendations joined by a newline-bullet separator (the enhanced
variant prefixes each section with an icon glyph). -/
def successNotice (var : Variant) (r : PredictionResponse) : String :=
  (match var with
   | .baseline => "Sleep Quality Prediction: "
   | .enhanced => "✅ Sleep Quality Prediction: ") ++
  r.prediction ++
  (match var with
   | .baseline => "\n\nConfidence: "
   | .enhanced => "\n\n📊 Confidence: ") ++
  (toFixed1 (ratMul100 r.confidence) ++ "%") ++
  (match var with
   | .baseline => "\n\nRecommendations:\n• "
   | .enhanced => "\n\n💡 Recommendations:\n• ") ++
  String.intercalate "\n• " r.recommendations

/-- The guard notice shown when age or gender is empty. -/
def guardNotice : String := "Please fill in at least Age and Gender"

/-- The URL the prediction request is POSTed to. -/
def predictUrl : String := "https://workspace-sashima.replit.dev/predict"

/-- An observable action performed by one run of `saveData`, in
program order: a loading-flag update, the storage write it attempts,
the POST it issues, an alert notice, or the navigation back. -/
inductive Effect where
  | setLoading (b : Bool)
  | storageWrite (key : String) (value : String)
  | httpPost (url : String) (body : PredictionRequest)
  | alertShown (msg : String)
  | navGoBack
deriving DecidableEq, Repr

/-- Whether an effect is a storage write. -/
def isWrite : Effect → Bool
  | .storageWrite _ _ => true
  | _ => false

/-- Whether an effect is an outbound POST. -/
def isPost : Effect → Bool
  | .httpPost _ _ => true
  | _ => false

/-- Whether an effect is an alert notice. -/
def isAlert : Effect → Bool
  | .alertShown _ => true
  | _ => false

/-- The loading values set during a run, in order. -/
def loadingSets (es : List Effect) : List Bool :=
  es.filterMap fun e =>
    match e with
    | .setLoading b => some b
    | _ => none

/-- The device key-value store: latest binding first. -/
def setItem (store : List (String × String)) (k v : String) :
    List (String × String) :=
  (k, v) :: store.filter (fun p => p.1 ≠ k)

/-- The result of one run of the save workflow: the ordered effects it
performed and the resulting key-value store. -/
structure SaveResult where
  effects : List Effect
  store : List (String × String)
deriving DecidableEq, Repr

/-- The `saveData` workflow of both variants
(`src/ManualEntry_Integrated.js`): the required-field guard, the
loading flag, the storage write under `"manualEntry"`, the prediction
request, and the success and failure continuations. A failing storage
write is recorded as an attempted `storageWrite` effect that does not
change the store; the POST effect records the fetch being issued
regardless of its outcome. -/
def saveData (var : Variant) (form : FormEntry) (env : Env)
    (store : List (String × String)) : SaveResult :=
  if form.age = "" ∨ form.gender = "" then
    { effects := [.alertShown guardNotice], store := store }
  else
    match env.storage with
    | .failure _msg =>
      { effects := [.setLoading true,
                    .storageWrite "manualEntry" (serializeForm form),
                    .setLoading false,
                    .alertShown (failNotice var _msg)],
        store := store }
    | .ok =>
      let stored := setItem store "manualEntry" (serializeForm form)
      match env.fetch with
      | .success resp =>
        { effects := [.setLoading true,
                      .storageWrite "manualEntry" (serializeForm form),
                      .httpPost predictUrl (buildRequest form),
                      .setLoading false,
                      .alertShown (successNotice var resp),
                      .navGoBack],
          store := stored }
      | o =>
        { effects := [.setLoading true,
                      .storageWrite "manualEntry" (serializeForm form),
                      .httpPost predictUrl (buildRequest form),
                      .setLoading false,
                      .alertShown (failNotice var (thrownMsg var o))],
          store := stored }

/-- A labelled option of the enhanced variant's `PickerButton`. -/
structure PickerOption where
  label : String
  value : String
deriving DecidableEq, Repr

/-- The gender options supplied to the picker in the enhanced screen. -/
def genderOptions : List PickerOption :=
  [⟨"Male", "Male"⟩, ⟨"Female", "Female"⟩]

/-- The BMI-category options supplied to the picker. -/
def bmiOptions : List PickerOption :=
  [⟨"Underweight", "Underweight"⟩, ⟨"Normal", "Normal"⟩,
   ⟨"Overweight", "Overweight"⟩, ⟨"Obese", "Obese"⟩]

/-- The sleep-disorder options supplied to the picker. -/
def sleepDisorderOptions : List PickerOption :=
  [⟨"None", "None"⟩, ⟨"Insomnia", "Insomnia"⟩,
   ⟨"Sleep Apnea", "Sleep Apnea"⟩]

/-- What the picker's always-visible header row shows: the text of the
inner `Text` node (`value || label` in the source), whether it carries
the solid selected style (`value ? selected : placeholder`), and the
arrow glyph. -/
structure PickerHeader where
  text : String
  selectedStyle : Bool
  arrow : String
deriving DecidableEq, Repr

/-- Render of the `PickerButton` header. -/
def renderHeader (label value : String) : PickerHeader :=
  { text := if value = "" then label else value,
    selectedStyle := value ≠ "",
    arrow := "▼" }

/-- The option whose `value` equals the control's current value. -/
def selectedOption (options : List PickerOption) (value : String) :
    Option PickerOption :=
  options.find? (fun o => o.value == value)

/-- The option rows rendered below the header: one per supplied option
in supplied order while expanded, none while collapsed. -/
def pickerRows (options : List PickerOption) (expanded : Bool) :
    List PickerOption :=
  if expanded then options else []

/-- `PickerButton`'s `useState(false)`: the control starts collapsed. -/
def pickerInit : Bool := false

/-- A user interaction with the picker. -/
inductive PickerEvent where
  | tapHeader
  | tapRow (i : ℕ)
deriving DecidableEq, Repr

/-- One step of the picker: the new expanded flag and the values passed
to `onSelect`, in order. Tapping the header toggles `showOptions`
without invoking the callback; tapping row `i` while expanded invokes
`onSelect` once with that option's value and collapses; rows do not
exist while collapsed. -/
def pickerStep (options : List PickerOption) (expanded : Bool) :
    PickerEvent → Bool × List String
  | .tapHeader => (!expanded, [])
  | .tapRow i =>
    if expanded then
      match options.get? i with
      | some opt => (false, [opt.value])
      | none => (expanded, [])
    else (expanded, [])

/-- A filled form matching the integration guide's worked example. -/
def cFormFilled : FormEntry :=
  ⟨"Male", "28", "", "", "", "42", "6", "Normal", "", "", "4200", ""⟩

/-- A valid form whose Daily Steps input is the parseable string "0". -/
def cFormZero : FormEntry :=
  ⟨"Male", "30", "", "", "", "", "", "", "", "", "0", ""⟩

/-- A valid form whose Stress Level input is unparsable. -/
def cFormAbcStress : FormEntry :=
  ⟨"Female", "28", "", "", "", "", "abc", "", "", "", "", ""⟩

/-- A form with an empty Age input. -/
def cFormNoAge : FormEntry :=
  ⟨"Male", "", "", "", "", "", "", "", "", "", "", ""⟩

/-- A valid form whose Age input fails integer parsing. -/
def cFormNaNAge : FormEntry :=
  ⟨"Male", "abc", "", "", "", "", "", "", "", "", "", ""⟩

/-- A form whose Age input is a single space. -/
def cFormWsAge : FormEntry :=
  ⟨"Male", " ", "", "", "", "", "", "", "", "", "", ""⟩

/-- The spec's example response: Good, confidence 0.953, two
recommendations. -/
def cResp : PredictionResponse :=
  ⟨"Good", mkRat 953 1000, ["Take a walk", "Reduce stress"]⟩

/-- An environment where both the write and the prediction succeed. -/
def cEnvOk : Env := ⟨.ok, .success cResp⟩

/-- An environment where the service answers 500 with a body text. -/
def cEnvHttp : Env := ⟨.ok, .httpError 500 "internal error"⟩

theorem data_append (s t : String) : (s ++ t).data = s.data ++ t.data := by
  cases s; cases t; rfl

theorem leadsWith_self_append (l b : List Char) :
    leadsWith l (l ++ b) = true := by
  induction l with
  | nil => rfl
  | cons c t ih => simp [leadsWith, ih]

theorem hasSub_mid (a b n : List Char) :
    hasSub n (a ++ (n ++ b)) = true := by
  induction a with
  | nil =>
    cases n with
    | nil =>
      cases b with
      | nil => rfl
      | cons c t => simp [hasSub, leadsWith]
    | cons c t =>
      simp only [List.nil_append, hasSub, Bool.or_eq_true]
      exact Or.inl (leadsWith_self_append (c :: t) b)
  | cons c t ih => simp [hasSub, ih]

theorem strContains_mid (a b n : String) :
    strContains (a ++ (n ++ b)) n = true := by
  simp [strContains, data_append, hasSub_mid]

theorem head_mismatch (c d : Char) (l m : List Char) (h : c ≠ d) :
    c :: l ≠ d :: m := by
  intro he
  injection he with h1 _
  exact h h1

theorem ne_of_data_ne (s t : String) (h : s.data ≠ t.data) : s ≠ t :=
  fun he => h (congrArg String.data he)

theorem failNotice_ne_guard (var : Variant) (m : String) :
    failNotice var m ≠ guardNotice := by
  cases var with
  | baseline =>
    simp only [failNotice]
    decide
  | enhanced =>
    apply ne_of_data_ne
    show ("Error getting prediction.\n\n" ++ _).data ≠ guardNotice.data
    rw [data_append]
    rw [show ("Error getting prediction.\n\n" : String).data =
      'E' :: ("rror getting prediction.\n\n" : String).data from rfl]
    rw [show guardNotice.data =
      'P' :: ("lease fill in at least Age and Gender" : String).data from rfl]
    rw [List.cons_append]
    exact head_mismatch _ _ _ _ (by decide)

theorem successNotice_ne_guard (var : Variant) (r : PredictionResponse) :
    successNotice var r ≠ guardNotice := by
  cases var with
  | baseline =>
    apply ne_of_data_ne
    simp only [successNotice, data_append, List.append_assoc]
    rw [show guardNotice.data =
      'P' :: ("lease fill in at least Age and Gender" : String).data from rfl]
    rw [List.cons_append]
    exact head_mismatch _ _ _ _ (by decide)
  | enhanced =>
    apply ne_of_data_ne
    simp only [successNotice, data_append, List.append_assoc]
    rw [show guardNotice.data =
      'P' :: ("lease fill in at least Age and Gender" : String).data from rfl]
    rw [List.cons_append]
    exact head_mismatch _ _ _ _ (by decide)

theorem strContains_of_eq (s n a b : String) (he : s = a ++ (n ++ b)) :
    strContains s n = true := he ▸ strContains_mid a b n

theorem floatOrNull_none_iff (s : String) :
    floatOrNull s = none ↔ jsFalsy (jsParseFloat s) = true := by
  cases h : jsFalsy (jsParseFloat s) <;> simp [floatOrNull, h]

theorem floatOrNull_some (s : String) (n : JsNum) (hf : jsFalsy n = false)
    (hp : jsParseFloat s = n) : floatOrNull s = some n := by
  simp [floatOrNull, hp, hf]

/-- C1 counterexample: the Daily Steps string "0" is non-empty and
parses as the number 0, yet the derived request transmits the
absent-sentinel for daily_steps, because `parseFloat(s) || null`
coalesces the falsy parsed value 0 to null. -/
theorem C1_counterexample :
    jsParseFloat "0" = JsNum.num 0 ∧
    ("0" : String) ≠ "" ∧
    (buildRequest cFormZero).daily_steps = none ∧
    (buildRequest cFormZero).daily_steps ≠ some (JsNum.num 0) := by
  decide

/-- C1 (amended): each optional numeric request field is the
absent-sentinel if and only if its source string's parseFloat result is
falsy — NaN (covering the empty string and every unparsable string) or
zero; whenever the source string parses to a number other than zero,
the parsed value itself is transmitted. -/
theorem C1_optional_fields_amended (f : FormEntry) :
    ((buildRequest f).daily_steps = none ↔
      jsFalsy (jsParseFloat f.dailySteps) = true) ∧
    (∀ n : JsNum, jsFalsy n = false → jsParseFloat f.dailySteps = n →
      (buildRequest f).daily_steps = some n) ∧
    ((buildRequest f).physical_activity_minutes = none ↔
      jsFalsy (jsParseFloat f.physicalActivity) = true) ∧
    (∀ n : JsNum, jsFalsy n = false → jsParseFloat f.physicalActivity = n →
      (buildRequest f).physical_activity_minutes = some n) ∧
    ((buildRequest f).stress_level = none ↔
      jsFalsy (jsParseFloat f.stressLevel) = true) ∧
    (∀ n : JsNum, jsFalsy n = false → jsParseFloat f.stressLevel = n →
      (buildRequest f).stress_level = some n) ∧
    jsParseFloat "" = JsNum.nan :=
  ⟨floatOrNull_none_iff _,
   fun n hf hp => floatOrNull_some _ n hf hp,
   floatOrNull_none_iff _,
   fun n hf hp => floatOrNull_some _ n hf hp,
   floatOrNull_none_iff _,
   fun n hf hp => floatOrNull_some _ n hf hp,
   by decide⟩

/-- C1 witness: on the guide's worked example, daily_steps is the
parsed 4200; on an unparsable stress string, stress_level is absent. -/
theorem C1_optional_fields_amended_witness :
    (buildRequest cFormFilled).daily_steps = some (JsNum.num 4200) ∧
    (buildRequest cFormAbcStress).stress_level = none :=
  ⟨(C1_optional_fields_amended cFormFilled).2.1 (JsNum.num 4200)
      (by decide) (by decide),
   ((C1_optional_fields_amended cFormAbcStress).2.2.2.2.1).mpr (by decide)⟩

/-- C2: with an empty age or an empty gender, the save workflow only
shows the blocking notice "Please fill in at least Age and Gender" and
aborts: no storage write, no POST, the loading flag is never set, and
the store is unchanged. -/
theorem C2_guard_blocks (var : Variant) (form : FormEntry) (env : Env)
    (store : List (String × String))
    (h : form.age = "" ∨ form.gender = "") :
    saveData var form env store =
      { effects := [Effect.alertShown "Please fill in at least Age and Gender"],
        store := store } ∧
    loadingSets (saveData var form env store).effects = [] ∧
    (saveData var form env store).effects.filter isWrite = [] ∧
    (saveData var form env store).effects.filter isPost = [] := by
  unfold saveData
  rw [if_pos h]
  refine ⟨rfl, ?_, ?_, ?_⟩ <;> rfl

/-- C2 witness: the guard fires on a form with empty age. -/
theorem C2_guard_blocks_witness :
    saveData Variant.enhanced cFormNoAge cEnvOk [] =
      { effects := [Effect.alertShown "Please fill in at least Age and Gender"],
        store := [] } :=
  (C2_guard_blocks Variant.enhanced cFormNoAge cEnvOk [] (Or.inl rfl)).1

/-- C3: with non-empty age and gender and an available store, one run
of the save workflow performs exactly one storage write — under the
fixed key "manualEntry", holding the JSON serialization of the full
form — and exactly one POST of the derived request, and the write
strictly precedes the POST in the effect order. -/
theorem C3_write_then_request (var : Variant) (form : FormEntry)
    (env : Env) (store : List (String × String))
    (h1 : form.age ≠ "") (h2 : form.gender ≠ "")
    (hs : env.storage = StorageResult.ok) :
    (saveData var form env store).effects.filter isWrite =
      [Effect.storageWrite "manualEntry" (serializeForm form)] ∧
    (saveData var form env store).effects.filter isPost =
      [Effect.httpPost predictUrl (buildRequest form)] ∧
    ∃ tail, (saveData var form env store).effects =
      Effect.setLoading true ::
      Effect.storageWrite "manualEntry" (serializeForm form) ::
      Effect.httpPost predictUrl (buildRequest form) :: tail := by
  obtain ⟨st, fo⟩ := env
  cases hs
  cases fo <;>
    simp [saveData, h1, h2, isWrite, isPost]

/-- C3 witness: one write then one POST on a concrete valid form. -/
theorem C3_write_then_request_witness :
    (saveData Variant.baseline cFormFilled cEnvOk []).effects.filter isWrite =
      [Effect.storageWrite "manualEntry" (serializeForm cFormFilled)] ∧
    (saveData Variant.baseline cFormFilled cEnvOk []).effects.filter isPost =
      [Effect.httpPost predictUrl (buildRequest cFormFilled)] ∧
    ∃ tail, (saveData Variant.baseline cFormFilled cEnvOk []).effects =
      Effect.setLoading true ::
      Effect.storageWrite "manualEntry" (serializeForm cFormFilled) ::
      Effect.httpPost predictUrl (buildRequest cFormFilled) :: tail :=
  C3_write_then_request Variant.baseline cFormFilled cEnvOk []
    (by decide) (by decide) rfl

/-- C4: on any failure of the persistence or the prediction step, the
run sets the loading flag to true and back to false (so it ends with
loading false), shows exactly one notice — a failure notice — performs
no navigation, and, when the persistence step succeeded, the serialized
form snapshot is still stored under "manualEntry" afterwards. -/
theorem C4_failure_handling (var : Variant) (form : FormEntry)
    (env : Env) (store : List (String × String))
    (h1 : form.age ≠ "") (h2 : form.gender ≠ "")
    (hfail : env.storage ≠ StorageResult.ok ∨ env.fetch.isSuccess = false) :
    loadingSets (saveData var form env store).effects = [true, false] ∧
    (∃ m, (saveData var form env store).effects.filter isAlert =
      [Effect.alertShown (failNotice var m)]) ∧
    Effect.navGoBack ∉ (saveData var form env store).effects ∧
    (env.storage = StorageResult.ok →
      ((saveData var form env store).store).lookup "manualEntry" =
        some (serializeForm form)) := by
  obtain ⟨st, fo⟩ := env
  cases st with
  | failure msg =>
    refine ⟨?_, ⟨msg, ?_⟩, ?_, ?_⟩ <;>
      simp [saveData, h1, h2, loadingSets, isAlert]
  | ok =>
    cases fo with
    | success r =>
      exact absurd hfail (by simp [FetchOutcome.isSuccess])
    | networkError m =>
      refine ⟨?_, ⟨m, ?_⟩, ?_, ?_⟩ <;>
        simp [saveData, h1, h2, loadingSets, isAlert, thrownMsg, setItem,
          List.lookup]
    | httpError status body =>
      refine ⟨?_, ⟨thrownMsg var (.httpError status body), ?_⟩, ?_, ?_⟩ <;>
        simp [saveData, h1, h2, loadingSets, isAlert, setItem, List.lookup]
    | decodeError m =>
      refine ⟨?_, ⟨m, ?_⟩, ?_, ?_⟩ <;>
        simp [saveData, h1, h2, loadingSets, isAlert, thrownMsg, setItem,
          List.lookup]

/-- C4 witness: a 500 response on a valid form leaves loading false,
one failure notice, no navigation, and the snapshot stored. -/
theorem C4_failure_handling_witness :
    loadingSets (saveData Variant.enhanced cFormFilled cEnvHttp []).effects =
      [true, false] ∧
    (∃ m, (saveData Variant.enhanced cFormFilled cEnvHttp []).effects.filter
        isAlert = [Effect.alertShown (failNotice Variant.enhanced m)]) ∧
    Effect.navGoBack ∉ (saveData Variant.enhanced cFormFilled cEnvHttp []).effects ∧
    (cEnvHttp.storage = StorageResult.ok →
      ((saveData Variant.enhanced cFormFilled cEnvHttp []).store).lookup
        "manualEntry" = some (serializeForm cFormFilled)) :=
  C4_failure_handling Variant.enhanced cFormFilled cEnvHttp []
    (by decide) (by decide) (Or.inr rfl)

theorem strContains_right (a n : String) : strContains (a ++ n) n = true := by
  apply strContains_of_eq _ _ a ""
  rw [String.append_empty]

theorem successNotice_contains_prediction (var : Variant)
    (r : PredictionResponse) :
    strContains (successNotice var r) r.prediction = true := by
  cases var with
  | baseline =>
    exact strContains_of_eq _ _ "Sleep Quality Prediction: "
      ("\n\nConfidence: " ++ ((toFixed1 (ratMul100 r.confidence) ++ "%") ++
        ("\n\nRecommendations:\n• " ++
          String.intercalate "\n• " r.recommendations)))
      (by simp only [successNotice, String.append_assoc])
  | enhanced =>
    exact strContains_of_eq _ _ "✅ Sleep Quality Prediction: "
      ("\n\n📊 Confidence: " ++ ((toFixed1 (ratMul100 r.confidence) ++ "%") ++
        ("\n\n💡 Recommendations:\n• " ++
          String.intercalate "\n• " r.recommendations)))
      (by simp only [successNotice, String.append_assoc])

theorem successNotice_contains_confidence (var : Variant)
    (r : PredictionResponse) :
    strContains (successNotice var r)
      (toFixed1 (ratMul100 r.confidence) ++ "%") = true := by
  cases var with
  | baseline =>
    exact strContains_of_eq _ _
      ("Sleep Quality Prediction: " ++ (r.prediction ++ "\n\nConfidence: "))
      ("\n\nRecommendations:\n• " ++
        String.intercalate "\n• " r.recommendations)
      (by simp only [successNotice, String.append_assoc])
  | enhanced =>
    exact strContains_of_eq _ _
      ("✅ Sleep Quality Prediction: " ++
        (r.prediction ++ "\n\n📊 Confidence: "))
      ("\n\n💡 Recommendations:\n• " ++
        String.intercalate "\n• " r.recommendations)
      (by simp only [successNotice, String.append_assoc])

theorem successNotice_contains_recommendations (var : Variant)
    (r : PredictionResponse) :
    strContains (successNotice var r)
      (String.intercalate "\n• " r.recommendations) = true := by
  cases var with
  | baseline => exact strContains_right _ _
  | enhanced => exact strContains_right _ _

theorem toFixed1_one_decimal (q : ℚ) :
    ∃ a d : String, toFixed1 q = a ++ "." ++ d ∧ d.length = 1 := by
  refine ⟨(if Int.fdiv (20 * q.num + (q.den : ℤ)) (2 * (q.den : ℤ)) < 0
      then "-" else "") ++
      toString ((Int.fdiv (20 * q.num + (q.den : ℤ))
        (2 * (q.den : ℤ))).natAbs / 10),
    String.singleton (digitChar (Int.fdiv (20 * q.num + (q.den : ℤ))
      (2 * (q.den : ℤ))).natAbs), rfl, rfl⟩

/-- C5: on a successful prediction with a valid form and a working
store, the run performs the write, the POST, sets loading back to
false, shows the success notice and then navigates back; the notice
contains the prediction label, the confidence rendered by `toFixed(1)`
followed by "%" (one decimal digit always; 0.953 renders as "95.3"),
and the recommendations joined in response order. -/
theorem C5_success_notice (var : Variant) (form : FormEntry) (env : Env)
    (store : List (String × String)) (resp : PredictionResponse)
    (h1 : form.age ≠ "") (h2 : form.gender ≠ "")
    (hs : env.storage = StorageResult.ok)
    (hf : env.fetch = FetchOutcome.success resp) :
    (saveData var form env store).effects =
      [Effect.setLoading true,
       Effect.storageWrite "manualEntry" (serializeForm form),
       Effect.httpPost predictUrl (buildRequest form),
       Effect.setLoading false,
       Effect.alertShown (successNotice var resp),
       Effect.navGoBack] ∧
    strContains (successNotice var resp) resp.prediction = true ∧
    strContains (successNotice var resp)
      (toFixed1 (ratMul100 resp.confidence) ++ "%") = true ∧
    strContains (successNotice var resp)
      (String.intercalate "\n• " resp.recommendations) = true ∧
    (∃ a d : String, toFixed1 (ratMul100 resp.confidence) = a ++ "." ++ d ∧
      d.length = 1) ∧
    toFixed1 (ratMul100 (mkRat 953 1000)) = "95.3" := by
  obtain ⟨st, fo⟩ := env
  cases hs
  cases hf
  exact ⟨by simp [saveData, h1, h2],
    successNotice_contains_prediction var resp,
    successNotice_contains_confidence var resp,
    successNotice_contains_recommendations var resp,
    toFixed1_one_decimal _,
    by decide⟩

/-- C5 witness: the spec's example response on a concrete valid form. -/
theorem C5_success_notice_witness :
    (saveData Variant.enhanced cFormFilled cEnvOk []).effects =
      [Effect.setLoading true,
       Effect.storageWrite "manualEntry" (serializeForm cFormFilled),
       Effect.httpPost predictUrl (buildRequest cFormFilled),
       Effect.setLoading false,
       Effect.alertShown (successNotice Variant.enhanced cResp),
       Effect.navGoBack] ∧
    strContains (successNotice Variant.enhanced cResp) cResp.prediction = true ∧
    strContains (successNotice Variant.enhanced cResp)
      (toFixed1 (ratMul100 cResp.confidence) ++ "%") = true ∧
    strContains (successNotice Variant.enhanced cResp)
      (String.intercalate "\n• " cResp.recommendations) = true ∧
    (∃ a d : String,
      toFixed1 (ratMul100 cResp.confidence) = a ++ "." ++ d ∧
      d.length = 1) ∧
    toFixed1 (ratMul100 (mkRat 953 1000)) = "95.3" :=
  C5_success_notice Variant.enhanced cFormFilled cEnvOk [] cResp
    (by decide) (by decide) rfl rfl

theorem strContains_front (s n b : String) (h : s = n ++ b) :
    strContains s n = true := by
  apply strContains_of_eq s n "" b
  rw [String.empty_append, h]

theorem serverMsg_contains_marker (status : ℕ) (body : String) :
    strContains (thrownMsg Variant.enhanced (.httpError status body))
      "Server error" = true := by
  apply strContains_front _ _ (": " ++ (toString status ++ (" - " ++ body)))
  simp only [thrownMsg]
  rw [show ("Server error: " : String) = "Server error" ++ ": " from by decide]
  simp only [String.append_assoc]

theorem enhancedFailNotice_network (m : String)
    (hm : strContains m "Network request failed" = true) :
    failNotice Variant.enhanced m =
      "Error getting prediction.\n\n" ++ netStepsText := by
  simp only [failNotice, enhancedFailNotice, hm, if_true]

theorem enhancedFailNotice_server (status : ℕ) (body : String)
    (hm : strContains (thrownMsg Variant.enhanced (.httpError status body))
      "Network request failed" = false) :
    failNotice Variant.enhanced
        (thrownMsg Variant.enhanced (.httpError status body)) =
      "Error getting prediction.\n\n" ++
        thrownMsg Variant.enhanced (.httpError status body) := by
  simp only [failNotice, enhancedFailNotice, hm,
    serverMsg_contains_marker status body, if_true, Bool.false_eq_true,
    if_false]

theorem enhancedFailNotice_details (m : String)
    (hm : strContains m "Network request failed" = false)
    (hsrv : strContains m "Server error" = false) :
    failNotice Variant.enhanced m =
      "Error getting prediction.\n\n" ++ ("Details: " ++ m) := by
  simp only [failNotice, enhancedFailNotice, hm, hsrv, Bool.false_eq_true,
    if_false]

/-- C6: on any save failure the baseline variant always shows the one
fixed generic message; the enhanced variant shows the three numbered
remediation steps when the failure message contains the network-failure
marker, a message carrying the HTTP status code and response body text
when the service answered a non-success status (whose thrown message
contains no marker), and otherwise the raw message under a "Details:"
prefixed line. -/
theorem C6_failure_notices :
    (∀ m : String, failNotice Variant.baseline m =
      "Error getting prediction. Please check your internet connection and try again.") ∧
    (∀ m : String, strContains m "Network request failed" = true →
      failNotice Variant.enhanced m =
        "Error getting prediction.\n\n" ++ netStepsText ∧
      strContains (failNotice Variant.enhanced m)
        "1. Check if the Replit server is running" = true ∧
      strContains (failNotice Variant.enhanced m)
        "2. Make sure the API_URL is correct" = true ∧
      strContains (failNotice Variant.enhanced m)
        "3. Try updating the URL in the code" = true) ∧
    (∀ (status : ℕ) (body : String),
      strContains (thrownMsg Variant.enhanced (.httpError status body))
        "Network request failed" = false →
      strContains (failNotice Variant.enhanced
          (thrownMsg Variant.enhanced (.httpError status body)))
        (toString status) = true ∧
      strContains (failNotice Variant.enhanced
          (thrownMsg Variant.enhanced (.httpError status body)))
        body = true) ∧
    (∀ m : String, strContains m "Network request failed" = false →
      strContains m "Server error" = false →
      failNotice Variant.enhanced m =
        "Error getting prediction.\n\n" ++ ("Details: " ++ m)) := by
  refine ⟨fun _ => rfl, fun m hm => ?_, fun status body hm => ?_, ?_⟩
  · rw [enhancedFailNotice_network m hm]
    refine ⟨rfl, ?_, ?_, ?_⟩ <;> decide
  · constructor
    · rw [enhancedFailNotice_server status body hm]
      apply strContains_of_eq _ _
        ("Error getting prediction.\n\n" ++ "Server error: ")
        (" - " ++ body)
      simp only [thrownMsg, String.append_assoc]
    · rw [enhancedFailNotice_server status body hm]
      apply strContains_of_eq _ _
        ("Error getting prediction.\n\n" ++
          ("Server error: " ++ (toString status ++ " - "))) ""
      simp only [thrownMsg, String.append_assoc, String.append_empty]
  · exact fun m hm hsrv => enhancedFailNotice_details m hm hsrv

/-- C6 witness: a network-unreachable message yields the three steps in
the enhanced variant and the fixed message in the baseline variant; a
500 response with body "internal error" surfaces both in the enhanced
notice; an unclassified message is shown under "Details:". -/
theorem C6_failure_notices_witness :
    failNotice Variant.baseline "Network request failed" =
      "Error getting prediction. Please check your internet connection and try again." ∧
    failNotice Variant.enhanced "Network request failed" =
      "Error getting prediction.\n\n" ++ netStepsText ∧
    strContains (failNotice Variant.enhanced
        (thrownMsg Variant.enhanced (.httpError 500 "internal error")))
      "500" = true ∧
    strContains (failNotice Variant.enhanced
        (thrownMsg Variant.enhanced (.httpError 500 "internal error")))
      "internal error" = true ∧
    failNotice Variant.enhanced "boom" =
      "Error getting prediction.\n\n" ++ ("Details: " ++ "boom") :=
  ⟨C6_failure_notices.1 "Network request failed",
   (C6_failure_notices.2.1 "Network request failed" (by decide)).1,
   (C6_failure_notices.2.2.1 500 "internal error" (by decide)).1,
   (C6_failure_notices.2.2.1 500 "internal error" (by decide)).2,
   C6_failure_notices.2.2.2 "boom" (by decide) (by decide)⟩

/-- C7 counterexample: a render whose supplied option list is
[(label "Man", value "M")] with current value "M" has a selected
option with label "Man", yet the header displays "M" — the control
renders the raw value (`value || label`), not the selected option's
label. -/
theorem C7_counterexample :
    selectedOption [⟨"Man", "M"⟩] "M" = some ⟨"Man", "M"⟩ ∧
    (renderHeader "Select Gender" "M").text = "M" ∧
    (renderHeader "Select Gender" "M").text ≠ "Man" := by
  decide

/-- C7 (amended): the header displays the raw selected value string
when a value is selected and the placeholder label when none, with the
arrow glyph always shown and the solid style exactly when a value is
selected; the displayed text equals the selected option's label
whenever that option's label equals its value — which holds for every
option list supplied in this repository. -/
theorem C7_header_amended (label value : String)
    (options : List PickerOption) :
    (value ≠ "" → (renderHeader label value).text = value) ∧
    (value = "" → (renderHeader label value).text = label) ∧
    (renderHeader label value).arrow = "▼" ∧
    ((renderHeader label value).selectedStyle = true ↔ value ≠ "") ∧
    (∀ o, selectedOption options value = some o → o.label = o.value →
      value ≠ "" → (renderHeader label value).text = o.label) ∧
    (∀ o, o ∈ genderOptions ++ bmiOptions ++ sleepDisorderOptions →
      o.label = o.value) := by
  refine ⟨?_, ?_, rfl, ?_, ?_, ?_⟩
  · intro h; simp [renderHeader, h]
  · intro h; simp [renderHeader, h]
  · simp [renderHeader]
  · intro o hsel hlv hv
    have hsel2 : List.find? (fun x => x.value == value) options = some o :=
      hsel
    have hov : o.value = value := by
      have := List.find?_some hsel2
      simpa using this
    simp only [renderHeader, if_neg hv]
    exact (hlv.trans hov).symm
  · decide

/-- C7 witness: with the repository's gender options, a selected value
"Male" displays "Male" (the selected option's label), and no selection
displays the placeholder. -/
theorem C7_header_amended_witness :
    (renderHeader "Select Gender" "Male").text = "Male" ∧
    (renderHeader "Select Gender" "").text = "Select Gender" ∧
    (renderHeader "Select Gender" "Male").text =
      (PickerOption.mk "Male" "Male").label :=
  ⟨(C7_header_amended "Select Gender" "Male" genderOptions).1 (by decide),
   (C7_header_amended "Select Gender" "" genderOptions).2.1 rfl,
   (C7_header_amended "Select Gender" "Male" genderOptions).2.2.2.2.1
     ⟨"Male", "Male"⟩ (by decide) rfl (by decide)⟩

/-- C8: the picker starts Collapsed; tapping the header toggles to
Expanded without invoking the callback and renders one row per supplied
option in supplied order; tapping it again collapses without invoking
the callback; tapping row i while Expanded invokes the callback exactly
once, with exactly that option's value, and collapses; no rows exist
while Collapsed. -/
theorem C8_picker_machine (options : List PickerOption) (i : ℕ)
    (opt : PickerOption) :
    pickerInit = false ∧
    pickerStep options false PickerEvent.tapHeader = (true, []) ∧
    pickerStep options true PickerEvent.tapHeader = (false, []) ∧
    pickerRows options true = options ∧
    pickerRows options false = [] ∧
    (options[i]? = some opt →
      pickerStep options true (PickerEvent.tapRow i) =
        (false, [opt.value])) := by
  refine ⟨rfl, rfl, rfl, rfl, rfl, fun h => ?_⟩
  simp [pickerStep, h]

/-- C8 witness: selecting the second gender row emits exactly
["Female"] and collapses. -/
theorem C8_picker_machine_witness :
    pickerStep genderOptions true (PickerEvent.tapRow 1) =
      (false, ["Female"]) :=
  (C8_picker_machine genderOptions 1 ⟨"Female", "Female"⟩).2.2.2.2.2
    (by decide)

/-- C9: a non-empty age that fails integer parsing is not guarded:
with a valid gender and a working store the POST is still issued
exactly once, and the request's age field carries the NaN parse
result. -/
theorem C9_nan_age_sent (var : Variant) (form : FormEntry) (env : Env)
    (store : List (String × String))
    (h1 : form.age ≠ "") (h2 : form.gender ≠ "")
    (hp : jsParseInt form.age = none)
    (hs : env.storage = StorageResult.ok) :
    (saveData var form env store).effects.filter isPost =
      [Effect.httpPost predictUrl (buildRequest form)] ∧
    (buildRequest form).age = JsNum.nan := by
  obtain ⟨st, fo⟩ := env
  cases hs
  refine ⟨?_, ?_⟩
  · cases fo <;> simp [saveData, h1, h2, isPost]
  · simp [buildRequest, hp]

/-- C9 witness: age "abc" parses to NaN and the request is still
sent with a NaN age. -/
theorem C9_nan_age_sent_witness :
    (saveData Variant.enhanced cFormNaNAge cEnvOk []).effects.filter isPost =
      [Effect.httpPost predictUrl (buildRequest cFormNaNAge)] ∧
    (buildRequest cFormNaNAge).age = JsNum.nan :=
  C9_nan_age_sent Variant.enhanced cFormNaNAge cEnvOk []
    (by decide) (by decide) (by decide) rfl

/-- C10: a whitespace-only (hence non-empty) age with a non-empty
gender passes the required-field guard — no validation notice is
shown, the workflow starts by setting loading, the storage write is
attempted, and with a working store the POST is issued: the guard
tests only string emptiness. -/
theorem C10_whitespace_age (var : Variant) (form : FormEntry) (env : Env)
    (store : List (String × String))
    (_hws : form.age.data.all jsWhitespace = true)
    (hne : form.age ≠ "") (h2 : form.gender ≠ "") :
    Effect.alertShown guardNotice ∉ (saveData var form env store).effects ∧
    (saveData var form env store).effects.head? =
      some (Effect.setLoading true) ∧
    (saveData var form env store).effects.filter isWrite =
      [Effect.storageWrite "manualEntry" (serializeForm form)] ∧
    (env.storage = StorageResult.ok →
      (saveData var form env store).effects.filter isPost =
        [Effect.httpPost predictUrl (buildRequest form)]) := by
  obtain ⟨st, fo⟩ := env
  cases st with
  | failure msg =>
    refine ⟨?_, ?_, ?_, ?_⟩
    · intro hmem
      simp [saveData, hne, h2] at hmem
      exact failNotice_ne_guard var msg hmem.symm
    · simp [saveData, hne, h2]
    · simp [saveData, hne, h2, isWrite]
    · intro hok; cases hok
  | ok =>
    cases fo with
    | success r =>
      refine ⟨?_, ?_, ?_, fun _ => ?_⟩
      · intro hmem
        simp [saveData, hne, h2] at hmem
        exact successNotice_ne_guard var r hmem.symm
      · simp [saveData, hne, h2]
      · simp [saveData, hne, h2, isWrite]
      · simp [saveData, hne, h2, isPost]
    | networkError m =>
      refine ⟨?_, ?_, ?_, fun _ => ?_⟩
      · intro hmem
        simp [saveData, hne, h2] at hmem
        exact failNotice_ne_guard var _ hmem.symm
      · simp [saveData, hne, h2]
      · simp [saveData, hne, h2, isWrite]
      · simp [saveData, hne, h2, isPost]
    | httpError status body =>
      refine ⟨?_, ?_, ?_, fun _ => ?_⟩
      · intro hmem
        simp [saveData, hne, h2] at hmem
        exact failNotice_ne_guard var _ hmem.symm
      · simp [saveData, hne, h2]
      · simp [saveData, hne, h2, isWrite]
      · simp [saveData, hne, h2, isPost]
    | decodeError m =>
      refine ⟨?_, ?_, ?_, fun _ => ?_⟩
      · intro hmem
        simp [saveData, hne, h2] at hmem
        exact failNotice_ne_guard var _ hmem.symm
      · simp [saveData, hne, h2]
      · simp [saveData, hne, h2, isWrite]
      · simp [saveData, hne, h2, isPost]

/-- C10 witness: age " " (a single space) with gender "Male" passes
the guard and the run writes and posts. -/
theorem C10_whitespace_age_witness :
    Effect.alertShown guardNotice ∉
      (saveData Variant.baseline cFormWsAge cEnvOk []).effects ∧
    (saveData Variant.baseline cFormWsAge cEnvOk []).effects.head? =
      some (Effect.setLoading true) ∧
    (saveData Variant.baseline cFormWsAge cEnvOk []).effects.filter isWrite =
      [Effect.storageWrite "manualEntry" (serializeForm cFormWsAge)] ∧
    (cEnvOk.storage = StorageResult.ok →
      (saveData Variant.baseline cFormWsAge cEnvOk []).effects.filter isPost =
        [Effect.httpPost predictUrl (buildRequest cFormWsAge)]) :=
  C10_whitespace_age Variant.baseline cFormWsAge cEnvOk []
    (by decide) (by decide) (by decide)
